import Mathlib

/-!
Verification of the CrownPages shared schema package (sections and full
pages): a shallow embedding of the section/full-page registries, the
schema-driven validators, the platform icon resolver and the version gate,
together with theorems about their behaviour.

The dynamic, loosely typed instance data that the validators receive
(`data: any` in the source) is modelled by the `JSValue` type below, with
JS truthiness made explicit.  Records (`Record<string, ...>`) are modelled
as association lists in declaration order, matching the iteration order of
`Object.entries` / `Object.values` on object literals.

Display-only attributes that no function under verification consults
(placeholders, descriptions, default data, style options, rendering hints,
per-definition icons and version strings) are omitted from the embedded
definitions; every attribute that the validators, lookup helpers, icon
resolver or version gate read is embedded faithfully from the source.
No registered field is named "length", so property access on non-object
values is modelled as returning `undefined`.

The registries are plain object literals in the source, so a bracket read
with an `Object.prototype` member name (for example "toString") returns
the inherited truthy member rather than `undefined`.  `getSectionDefinition`
and `getFullPageDefinition` model the own-key portion of that read;
`sectionRegistryRead` and `validateSectionDataJS` model the full JS
semantics, including the prototype chain and the `TypeError` the validator
then throws at `Object.entries(definition.fields)`.
-/

/-- A dynamically typed JavaScript value, as received by the validators. -/
inductive JSValue where
  | undefined
  | null
  | bool (b : Bool)
  | num (n : Int)
  | str (s : String)
  | arr (elems : List JSValue)
  | obj (props : List (String × JSValue))

/-- JS truthiness: `undefined`, `null`, `false`, `0` and `""` are falsy;
every other value (including empty arrays and objects) is truthy. -/
def JSValue.truthy : JSValue → Bool
  | .undefined => false
  | .null => false
  | .bool b => b
  | .num n => n != 0
  | .str s => s != ""
  | .arr _ => true
  | .obj _ => true

/-- Property read `v[k]`: an own property of an object, else `undefined`.
(No registered field name collides with a built-in property.) -/
def JSValue.getProp : JSValue → String → JSValue
  | .obj props, k =>
    match props.find? (fun p => p.1 == k) with
    | some p => p.2
    | none => .undefined
  | _, _ => .undefined

/-- The JS `.length` property where it is a number: character count of a
string, element count of an array; `undefined` (here `none`) otherwise. -/
def JSValue.lengthProp : JSValue → Option Nat
  | .str s => some s.length
  | .arr elems => some elems.length
  | _ => none

/-- The strict comparison `v === ""` from the validator source. -/
def JSValue.isEmptyString : JSValue → Bool
  | .str s => s == ""
  | _ => false

/-- `v.length > m` under JS semantics: `undefined > m` is false. -/
def jsLengthExceeds (v : JSValue) (m : Nat) : Bool :=
  match v.lengthProp with
  | some l => decide (m < l)
  | none => false

/-- The discriminant of a field definition (`type:` in the source).  The
full-page registry also uses a `boolean` field type. -/
inductive FieldKind where
  | text
  | textarea
  | image
  | select
  | button
  | array
  | boolean
deriving DecidableEq

/-- One entry of a `select` field's option list (display-only `icon` and
`preview` attributes omitted). -/
structure SelectOption where
  label : String
  value : String
deriving DecidableEq

/-- A field definition nested inside an array field's `itemSchema`.  In
all registered content the nesting is exactly one level deep, so item
fields carry no `itemSchema` of their own. -/
structure ItemFieldDefinition where
  kind : FieldKind
  required : Bool
  label : String
  maxLength : Option Nat := none
  minLength : Option Nat := none
  rows : Option Nat := none
  accept : List String := []
  maxSize : Option Nat := none
  options : List SelectOption := []
deriving DecidableEq

/-- A top-level field definition of a section or full-page section. -/
structure FieldDefinition where
  kind : FieldKind
  required : Bool
  label : String
  maxLength : Option Nat := none
  minLength : Option Nat := none
  rows : Option Nat := none
  accept : List String := []
  maxSize : Option Nat := none
  options : List SelectOption := []
  linkTypes : List String := []
  minItems : Option Nat := none
  maxItems : Option Nat := none
  itemSchema : List (String × ItemFieldDefinition) := []
deriving DecidableEq

/-- A registered section definition (the attributes the helper functions
under verification consult). -/
structure SectionDefinition where
  type : String
  name : String
  category : String
  fields : List (String × FieldDefinition)
deriving DecidableEq

/-- The result record of both validators. -/
structure ValidationResult where
  valid : Bool
  errors : List String
deriving DecidableEq

/-- The required-ness check of `validateSectionData`:
`fieldDef.required && (!data[fieldName] || data[fieldName] === "")`. -/
def requiredCheck (fd : FieldDefinition) (v : JSValue) : List String :=
  if fd.required && (!v.truthy || v.isEmptyString) then
    [fd.label ++ " is required"]
  else []

/-- The text length check of `validateSectionData`: only for fields whose
kind is `text`, only for truthy values, and only when a nonzero
`maxLength` is declared. -/
def lengthCheck (fd : FieldDefinition) (v : JSValue) : List String :=
  if fd.kind == FieldKind.text && v.truthy then
    match fd.maxLength with
    | some m =>
      if m != 0 && jsLengthExceeds v m then
        [fd.label ++ " must be " ++ toString m ++ " characters or less"]
      else []
    | none => []
  else []

/-- The body of the per-field loop of `validateSectionData`. -/
def validateField (data : JSValue) (fieldName : String) (fd : FieldDefinition) : List String :=
  requiredCheck fd (data.getProp fieldName) ++ lengthCheck fd (data.getProp fieldName)

/-- All errors collected by walking a definition's fields in declaration
order. -/
def sectionFieldErrors (d : SectionDefinition) (data : JSValue) : List String :=
  d.fields.flatMap (fun p => validateField data p.1 p.2)

/-- One entry of the cross-platform icon table. -/
structure IconOption where
  label : String
  value : String
  mobile : String
  web : String
  category : String
deriving DecidableEq

/-- The static icon mapping table `ICON_OPTIONS`. -/
def ICON_OPTIONS : List IconOption := [
  ⟨"Checkmark", "checkmark-circle", "checkmark-circle", "check-circle", "success"⟩,
  ⟨"Star", "star", "star", "star", "rating"⟩,
  ⟨"Shield", "shield", "shield-checkmark", "shield-check", "security"⟩,
  ⟨"Time", "time", "time", "clock", "time"⟩,
  ⟨"Trophy", "trophy", "trophy", "trophy", "achievement"⟩,
  ⟨"Heart", "heart", "heart", "heart", "emotion"⟩,
  ⟨"Lightning", "flash", "flash", "zap", "energy"⟩,
  ⟨"Target", "target", "radio-button-on", "target", "focus"⟩,
  ⟨"Globe", "globe", "globe", "globe", "global"⟩,
  ⟨"Thumbs Up", "thumbs-up", "thumbs-up", "thumbs-up", "approval"⟩,
  ⟨"Facebook", "facebook", "logo-facebook", "facebook", "social"⟩,
  ⟨"Instagram", "instagram", "logo-instagram", "instagram", "social"⟩,
  ⟨"Twitter/X", "twitter", "logo-twitter", "twitter", "social"⟩,
  ⟨"LinkedIn", "linkedin", "logo-linkedin", "linkedin", "social"⟩,
  ⟨"TikTok", "tiktok", "logo-tiktok", "video", "social"⟩,
  ⟨"YouTube", "youtube", "logo-youtube", "youtube", "social"⟩,
  ⟨"WhatsApp", "whatsapp", "logo-whatsapp", "message-circle", "social"⟩,
  ⟨"Email", "email", "mail", "mail", "communication"⟩,
  ⟨"Phone", "phone", "call", "phone", "communication"⟩,
  ⟨"Website", "website", "globe", "external-link", "web"⟩,
  ⟨"Download", "download", "download", "download", "action"⟩,
  ⟨"Calendar", "calendar", "calendar", "calendar", "time"⟩,
  ⟨"Location", "location", "location", "map-pin", "place"⟩]

/-- The `hero` section definition. -/
def heroSection : SectionDefinition :=
  { type := "hero", name := "Hero Section", category := "content",
    fields := [
      ("title", { kind := .text, required := false, label := "Main Title",
                  maxLength := some 100 }),
      ("subtitle", { kind := .text, required := false, label := "Subtitle",
                     maxLength := some 200 }),
      ("backgroundImage", { kind := .image, required := false, label := "Background Image",
                            accept := ["jpg", "jpeg", "png", "webp"], maxSize := some 5 }),
      ("ctaButton", { kind := .button, required := false, label := "Call-to-Action Button",
                      linkTypes := ["url", "email", "phone"] })] }

/-- The `features` section definition. -/
def featuresSection : SectionDefinition :=
  { type := "features", name := "Features Section", category := "content",
    fields := [
      ("title", { kind := .text, required := true, label := "Section Title",
                  maxLength := some 80 }),
      ("features", { kind := .array, required := true, label := "Features List",
                     minItems := some 1, maxItems := some 12,
                     itemSchema := [
                       ("icon", { kind := .select, required := true, label := "Icon",
                                  options := ICON_OPTIONS.map (fun o => ⟨o.label, o.value⟩) }),
                       ("title", { kind := .text, required := true, label := "Feature Title",
                                   maxLength := some 50 }),
                       ("description", { kind := .textarea, required := false,
                                         label := "Description", maxLength := some 200,
                                         rows := some 2 })] })] }

/-- The `about` section definition. -/
def aboutSection : SectionDefinition :=
  { type := "about", name := "About Section", category := "content",
    fields := [
      ("title", { kind := .text, required := true, label := "Section Title",
                  maxLength := some 80 }),
      ("content", { kind := .textarea, required := true, label := "Content",
                    maxLength := some 1000, rows := some 6 }),
      ("image", { kind := .image, required := false, label := "Image",
                  accept := ["jpg", "jpeg", "png", "webp"], maxSize := some 3 })] }

/-- The `contact` section definition. -/
def contactSection : SectionDefinition :=
  { type := "contact", name := "Contact Section", category := "data",
    fields := [
      ("title", { kind := .text, required := true, label := "Section Title",
                  maxLength := some 80 }),
      ("phone", { kind := .text, required := false, label := "Phone Number" }),
      ("email", { kind := .text, required := false, label := "Email" }),
      ("address", { kind := .textarea, required := false, label := "Address",
                    rows := some 3 })] }

/-- The `personalContact` section definition. -/
def personalContactSection : SectionDefinition :=
  { type := "personalContact", name := "Personal Contact Card", category := "data",
    fields := [
      ("name", { kind := .text, required := true, label := "Full Name",
                 maxLength := some 100 }),
      ("title", { kind := .text, required := false, label := "Title/Position",
                  maxLength := some 150 }),
      ("phone", { kind := .text, required := false, label := "Phone Number" }),
      ("email", { kind := .text, required := false, label := "Email" }),
      ("photo", { kind := .image, required := false, label := "Profile Photo",
                  accept := ["jpg", "jpeg", "png", "webp"], maxSize := some 2 }),
      ("website", { kind := .text, required := false, label := "Website" }),
      ("bio", { kind := .textarea, required := false, label := "Short Bio",
                maxLength := some 300, rows := some 3 }),
      ("customLinks", { kind := .array, required := false, label := "Custom Links",
                        maxItems := some 8,
                        itemSchema := [
                          ("type", { kind := .select, required := true, label := "Link Type",
                                     options := [
                                       ⟨"LinkedIn", "linkedin"⟩, ⟨"Instagram", "instagram"⟩,
                                       ⟨"Twitter/X", "twitter"⟩, ⟨"Facebook", "facebook"⟩,
                                       ⟨"TikTok", "tiktok"⟩, ⟨"YouTube", "youtube"⟩,
                                       ⟨"Portfolio", "portfolio"⟩, ⟨"Resume/CV", "resume"⟩,
                                       ⟨"Blog", "blog"⟩, ⟨"WhatsApp", "whatsapp"⟩,
                                       ⟨"Telegram", "telegram"⟩, ⟨"Discord", "discord"⟩,
                                       ⟨"Calendly", "calendly"⟩, ⟨"Venmo", "venmo"⟩,
                                       ⟨"PayPal", "paypal"⟩, ⟨"Custom", "custom"⟩] }),
                          ("label", { kind := .text, required := true, label := "Link Label",
                                      maxLength := some 50 }),
                          ("url", { kind := .text, required := true, label := "URL" })] })] }

/-- The `gallery` section definition. -/
def gallerySection : SectionDefinition :=
  { type := "gallery", name := "Gallery Section", category := "media",
    fields := [
      ("title", { kind := .text, required := true, label := "Section Title",
                  maxLength := some 80 }),
      ("images", { kind := .array, required := false, label := "Images",
                   maxItems := some 20,
                   itemSchema := [
                     ("url", { kind := .image, required := true, label := "Image",
                               accept := ["jpg", "jpeg", "png", "webp"], maxSize := some 5 }),
                     ("caption", { kind := .text, required := false, label := "Caption",
                                   maxLength := some 100 })] })] }

/-- The `testimonials` section definition. -/
def testimonialsSection : SectionDefinition :=
  { type := "testimonials", name := "Testimonials Section", category := "content",
    fields := [
      ("title", { kind := .text, required := true, label := "Section Title",
                  maxLength := some 80 }),
      ("testimonials", { kind := .array, required := false, label := "Testimonials",
                         maxItems := some 10,
                         itemSchema := [
                           ("name", { kind := .text, required := true, label := "Customer Name",
                                      maxLength := some 50 }),
                           ("position", { kind := .text, required := false,
                                          label := "Position/Company", maxLength := some 100 }),
                           ("text", { kind := .textarea, required := true,
                                      label := "Testimonial", maxLength := some 500,
                                      rows := some 3 }),
                           ("rating", { kind := .select, required := false, label := "Rating",
                                        options := [
                                          ⟨"5 Stars", "5"⟩, ⟨"4 Stars", "4"⟩, ⟨"3 Stars", "3"⟩,
                                          ⟨"2 Stars", "2"⟩, ⟨"1 Star", "1"⟩] })] })] }

/-- The `faq` section definition. -/
def faqSection : SectionDefinition :=
  { type := "faq", name := "FAQ Section", category := "content",
    fields := [
      ("title", { kind := .text, required := true, label := "Section Title",
                  maxLength := some 80 }),
      ("questions", { kind := .array, required := false, label := "Questions",
                      maxItems := some 20,
                      itemSchema := [
                        ("question", { kind := .text, required := true, label := "Question",
                                       maxLength := some 200 }),
                        ("answer", { kind := .textarea, required := true, label := "Answer",
                                     maxLength := some 1000, rows := some 3 })] })] }

/-- The `cta` section definition. -/
def ctaSection : SectionDefinition :=
  { type := "cta", name := "Call-to-Action Section", category := "interaction",
    fields := [
      ("title", { kind := .text, required := true, label := "Main Title",
                  maxLength := some 100 }),
      ("description", { kind := .textarea, required := false, label := "Description",
                        maxLength := some 300, rows := some 2 }),
      ("button", { kind := .button, required := true, label := "Action Button",
                   linkTypes := ["url", "email", "phone"] })] }

/-- The `multiContact` section definition. -/
def multiContactSection : SectionDefinition :=
  { type := "multiContact", name := "Multi-Contact Section", category := "data",
    fields := [
      ("title", { kind := .text, required := true, label := "Section Title",
                  maxLength := some 80 }),
      ("businessInfo", { kind := .array, required := true,
                         label := "Main Business Information",
                         minItems := some 1, maxItems := some 1,
                         itemSchema := [
                           ("name", { kind := .text, required := true,
                                      label := "Business/Organization Name",
                                      maxLength := some 200 }),
                           ("address", { kind := .textarea, required := false,
                                         label := "Business Address",
                                         rows := some 2, maxLength := some 500 }),
                           ("phone", { kind := .text, required := false,
                                       label := "Main Phone Number", maxLength := some 50 }),
                           ("fax", { kind := .text, required := false, label := "Fax Number",
                                     maxLength := some 50 }),
                           ("email", { kind := .text, required := false, label := "Main Email",
                                       maxLength := some 200 }),
                           ("website", { kind := .text, required := false, label := "Website",
                                         maxLength := some 300 })] }),
      ("contactPersons", { kind := .array, required := false, label := "Additional Contact",
                           maxItems := some 10,
                           itemSchema := [
                             ("name", { kind := .text, required := true,
                                        label := "Contact Name", maxLength := some 100 }),
                             ("title", { kind := .text, required := false,
                                         label := "Title/Department", maxLength := some 150 }),
                             ("photo", { kind := .image, required := false,
                                         label := "Contact Photo",
                                         accept := ["jpg", "jpeg", "png", "webp"],
                                         maxSize := some 2 }),
                             ("phone", { kind := .text, required := false,
                                         label := "Direct Phone", maxLength := some 50 }),
                             ("email", { kind := .text, required := false,
                                         label := "Direct Email", maxLength := some 200 }),
                             ("extension", { kind := .text, required := false,
                                             label := "Extension", maxLength := some 20 })] })] }

/-- The `medicalProvider` section definition. -/
def medicalProviderSection : SectionDefinition :=
  { type := "medicalProvider", name := "Full Page: Medical Provider", category := "content",
    fields := [
      ("facilityName", { kind := .text, required := true, label := "Provider/Facility Name",
                         maxLength := some 200 }),
      ("heroImage", { kind := .image, required := false, label := "Hero Background Image",
                      accept := ["jpg", "jpeg", "png", "webp"], maxSize := some 5 }),
      ("logo", { kind := .image, required := false, label := "Provider Logo",
                 accept := ["jpg", "jpeg", "png", "webp"], maxSize := some 2 }),
      ("streetAddress", { kind := .text, required := false, label := "Street Address",
                          maxLength := some 200 }),
      ("unit", { kind := .text, required := false, label := "Unit/Suite",
                 maxLength := some 50 }),
      ("city", { kind := .text, required := false, label := "City", maxLength := some 100 }),
      ("state", { kind := .text, required := false, label := "State", maxLength := some 50 }),
      ("zipCode", { kind := .text, required := false, label := "ZIP Code",
                    maxLength := some 20 }),
      ("phone", { kind := .text, required := false, label := "Main Phone Number",
                  maxLength := some 50 }),
      ("fax", { kind := .text, required := false, label := "Fax Number",
                maxLength := some 50 }),
      ("email", { kind := .text, required := false, label := "Email Address",
                  maxLength := some 200 }),
      ("website", { kind := .text, required := false, label := "Website URL",
                    maxLength := some 300 }),
      ("serviceDescription", { kind := .textarea, required := false,
                               label := "About Description", maxLength := some 2000,
                               rows := some 6 }),
      ("priceLow", { kind := .text, required := false, label := "Starting Price (monthly)" }),
      ("priceHigh", { kind := .text, required := false, label := "High Price (monthly)" }),
      ("services", { kind := .array, required := false, label := "Services & Specialties",
                     maxItems := some 15,
                     itemSchema := [
                       ("name", { kind := .text, required := true, label := "Service Name",
                                  maxLength := some 100 }),
                       ("icon", { kind := .select, required := false, label := "Service Icon",
                                  options := [
                                    ⟨"Assisted Living", "home"⟩, ⟨"Memory Care", "brain"⟩,
                                    ⟨"Skilled Nursing", "medical"⟩,
                                    ⟨"Physical Therapy", "fitness"⟩,
                                    ⟨"Occupational Therapy", "hand"⟩,
                                    ⟨"Speech Therapy", "mic"⟩, ⟨"Mental Health", "happy"⟩,
                                    ⟨"Hospice Care", "heart"⟩,
                                    ⟨"Home Health", "home-medical"⟩,
                                    ⟨"Independent Living", "person"⟩,
                                    ⟨"Transportation", "car"⟩,
                                    ⟨"Dining Services", "restaurant"⟩,
                                    ⟨"Activities", "game"⟩, ⟨"Emergency Response", "alert"⟩,
                                    ⟨"Medication Management", "medical-bag"⟩] }),
                       ("available", { kind := .select, required := true, label := "Available",
                                       options := [⟨"Yes", "true"⟩, ⟨"No", "false"⟩] })] }),
      ("acceptedInsurance", { kind := .array, required := false, label := "Accepted Insurance",
                              maxItems := some 20,
                              itemSchema := [
                                ("name", { kind := .text, required := true,
                                           label := "Insurance Provider",
                                           maxLength := some 100 })] }),
      ("admissionCoordinator", { kind := .text, required := false,
                                 label := "Admission Coordinator Name",
                                 maxLength := some 100 }),
      ("admissionCoordinatorPhone", { kind := .text, required := false,
                                      label := "Admission Coordinator Phone",
                                      maxLength := some 50 }),
      ("admissionCoordinatorEmail", { kind := .text, required := false,
                                      label := "Admission Coordinator Email",
                                      maxLength := some 200 }),
      ("certifications", { kind := .array, required := false,
                           label := "Certifications & Awards", maxItems := some 10,
                           itemSchema := [
                             ("name", { kind := .text, required := true,
                                        label := "Certification/Award Name",
                                        maxLength := some 150 }),
                             ("icon", { kind := .select, required := false,
                                        label := "Badge Icon",
                                        options := [
                                          ⟨"Certificate", "certificate"⟩, ⟨"Award", "award"⟩,
                                          ⟨"Star Rating", "star"⟩,
                                          ⟨"Shield/Security", "shield"⟩,
                                          ⟨"Medical Cross", "medical"⟩,
                                          ⟨"Checkmark", "check"⟩] })] }),
      ("galleryTitle", { kind := .text, required := false, label := "Gallery Section Title",
                         maxLength := some 80 }),
      ("galleryImages", { kind := .array, required := false, label := "Gallery Images",
                          maxItems := some 20,
                          itemSchema := [
                            ("url", { kind := .image, required := true, label := "Image",
                                      accept := ["jpg", "jpeg", "png", "webp"],
                                      maxSize := some 5 }),
                            ("caption", { kind := .text, required := false, label := "Caption",
                                          maxLength := some 100 })] }),
      ("hasEmergencyResponse", { kind := .select, required := false,
                                 label := "24/7 Emergency Response",
                                 options := [⟨"Yes", "true"⟩, ⟨"No", "false"⟩] }),
      ("hasPetFriendly", { kind := .select, required := false, label := "Pet Friendly",
                           options := [⟨"Yes", "true"⟩, ⟨"No", "false"⟩] }),
      ("operatingHours", { kind := .textarea, required := false, label := "Operating Hours",
                           rows := some 3, maxLength := some 300 })] }

/-- The `companyHeader` section definition. -/
def companyHeaderSection : SectionDefinition :=
  { type := "companyHeader", name := "Company Header", category := "content",
    fields := [
      ("companyName", { kind := .text, required := true, label := "Company Name",
                        maxLength := some 200 }),
      ("address", { kind := .textarea, required := false, label := "Address",
                    maxLength := some 300, rows := some 2 }),
      ("mapUrl", { kind := .text, required := false, label := "Google Maps URL",
                   maxLength := some 500 })] }

/-- The `contactCard` section definition. -/
def contactCardSection : SectionDefinition :=
  { type := "contactCard", name := "Contact Card", category := "data",
    fields := [
      ("name", { kind := .text, required := true, label := "Name", maxLength := some 100 }),
      ("role", { kind := .text, required := false, label := "Role/Position",
                 maxLength := some 100 }),
      ("imageUrl", { kind := .image, required := false, label := "Profile Photo",
                     accept := ["jpg", "jpeg", "png", "webp"], maxSize := some 2 }),
      ("phone", { kind := .text, required := false, label := "Phone Number",
                  maxLength := some 50 }),
      ("email", { kind := .text, required := false, label := "Email",
                  maxLength := some 200 })] }

/-- The `amenities` section definition. -/
def amenitiesSection : SectionDefinition :=
  { type := "amenities", name := "Amenities", category := "content",
    fields := [
      ("title", { kind := .text, required := true, label := "Section Title",
                  maxLength := some 80 }),
      ("amenities", { kind := .array, required := true, label := "Amenities List",
                      minItems := some 1, maxItems := some 20,
                      itemSchema := [
                        ("name", { kind := .text, required := true, label := "Amenity Name",
                                   maxLength := some 50 }),
                        ("icon", { kind := .select, required := false, label := "Icon",
                                   options := ICON_OPTIONS.map (fun o => ⟨o.label, o.value⟩) })] })] }

/-- The section registry `SECTION_DEFINITIONS`, in declaration order. -/
def SECTION_DEFINITIONS : List (String × SectionDefinition) := [
  ("hero", heroSection),
  ("features", featuresSection),
  ("about", aboutSection),
  ("contact", contactSection),
  ("personalContact", personalContactSection),
  ("gallery", gallerySection),
  ("testimonials", testimonialsSection),
  ("faq", faqSection),
  ("cta", ctaSection),
  ("multiContact", multiContactSection),
  ("medicalProvider", medicalProviderSection),
  ("companyHeader", companyHeaderSection),
  ("contactCard", contactCardSection),
  ("amenities", amenitiesSection)]

/-- `getSectionDefinition`: own-key lookup in the registry, `null` (here
`none`) for unknown types.  The inherited Object.prototype members that a
plain-object bracket read can additionally return are modelled separately
by `sectionRegistryRead` and `validateSectionDataJS` below. -/
def getSectionDefinition (sectionType : String) : Option SectionDefinition :=
  (SECTION_DEFINITIONS.find? (fun p => p.1 == sectionType)).map Prod.snd

/-- `getAllSectionTypes`: every registered type key, in insertion order. -/
def getAllSectionTypes : List String :=
  SECTION_DEFINITIONS.map Prod.fst

/-- `getSectionsByCategory`: filters the registered definitions by their
`category` string. -/
def getSectionsByCategory (category : String) : List SectionDefinition :=
  (SECTION_DEFINITIONS.map Prod.snd).filter (fun d => d.category == category)

/-- `validateSectionData`: resolve the type, short-circuit for unknown
types, otherwise walk the field definitions collecting required and text
length errors. -/
def validateSectionData (sectionType : String) (data : JSValue) : ValidationResult :=
  match getSectionDefinition sectionType with
  | none => { valid := false, errors := ["Unknown section type: " ++ sectionType] }
  | some definition =>
    let errors := sectionFieldErrors definition data
    { valid := errors.length == 0, errors := errors }

/-- The two target platforms of `getIconForPlatform`. -/
inductive Platform where
  | mobile
  | web
deriving DecidableEq

/-- The platform-specific identifier of one icon table entry. -/
def IconOption.forPlatform (o : IconOption) : Platform → String
  | .mobile => o.mobile
  | .web => o.web

/-- `getIconForPlatform`: first match on `value` in the icon table, with
the input value itself as pass-through fallback. -/
def getIconForPlatform (iconValue : String) (platform : Platform) : String :=
  match ICON_OPTIONS.find? (fun o => o.value == iconValue) with
  | some o => o.forPlatform platform
  | none => iconValue

/-- The current section schema version constant. -/
def SCHEMA_VERSION : String := "1.0.0"

/-- `isCompatibleVersion`: strict string equality with `SCHEMA_VERSION`. -/
def isCompatibleVersion (version : String) : Bool :=
  version == SCHEMA_VERSION

/-- One ordered entry of a full page definition's `sections` list. -/
structure FullPageSection where
  id : String
  type : String
  name : String
  fields : List (String × FieldDefinition)
  optional : Bool
deriving DecidableEq

/-- A registered full page definition (the attributes the helper
functions under verification consult). -/
structure FullPageDefinition where
  type : String
  name : String
  category : String
  sections : List FullPageSection
deriving DecidableEq

/-- The hero entry of the healthcare provider full page. -/
def hpHero : FullPageSection :=
  { id := "hero", type := "hero", name := "Facility Header", optional := false,
    fields := [
      ("facilityName", { kind := .text, required := true, label := "Facility Name",
                         maxLength := some 200 }),
      ("heroImage", { kind := .image, required := false, label := "Hero Background Image",
                      accept := ["jpg", "jpeg", "png", "webp"], maxSize := some 5 }),
      ("logo", { kind := .image, required := false, label := "Facility Logo",
                 accept := ["jpg", "jpeg", "png", "webp", "svg"], maxSize := some 2 })] }

/-- The facility details entry of the healthcare provider full page. -/
def hpFacilityDetails : FullPageSection :=
  { id := "facilityDetails", type := "facilityDetails", name := "Facility Information",
    optional := false,
    fields := [
      ("streetAddress", { kind := .text, required := false, label := "Street Address",
                          maxLength := some 200 }),
      ("unit", { kind := .text, required := false, label := "Unit/Suite",
                 maxLength := some 50 }),
      ("city", { kind := .text, required := false, label := "City", maxLength := some 100 }),
      ("state", { kind := .text, required := false, label := "State", maxLength := some 50 }),
      ("zipCode", { kind := .text, required := false, label := "ZIP Code",
                    maxLength := some 10 }),
      ("phone", { kind := .text, required := false, label := "Main Phone Number" }),
      ("fax", { kind := .text, required := false, label := "Fax Number" }),
      ("website", { kind := .text, required := false, label := "Website" }),
      ("ualaCertified", { kind := .boolean, required := false, label := "UALA Certified" })] }

/-- The about entry of the healthcare provider full page. -/
def hpAbout : FullPageSection :=
  { id := "about", type := "about", name := "About Section", optional := true,
    fields := [
      ("serviceDescription", { kind := .textarea, required := false,
                               label := "Service Description", maxLength := some 1000,
                               rows := some 6 })] }

/-- The pricing entry of the healthcare provider full page. -/
def hpPricing : FullPageSection :=
  { id := "pricing", type := "pricing", name := "Pricing Information", optional := true,
    fields := [
      ("priceLow", { kind := .text, required := false, label := "Starting Price (monthly)" }),
      ("priceHigh", { kind := .text, required := false, label := "Max Price (monthly)" })] }

/-- The services entry of the healthcare provider full page. -/
def hpServices : FullPageSection :=
  { id := "services", type := "services", name := "Services Offered", optional := true,
    fields := [
      ("hasAssistedLiving", { kind := .boolean, required := false,
                              label := "Assisted Living" }),
      ("hasMemoryCare", { kind := .boolean, required := false, label := "Memory Care" }),
      ("hasIndependentLiving", { kind := .boolean, required := false,
                                 label := "Independent Living" }),
      ("hasSkilledNursing", { kind := .boolean, required := false,
                              label := "Skilled Nursing" }),
      ("hasInHomeCare", { kind := .boolean, required := false, label := "In-Home Care" }),
      ("hasHomeHealth", { kind := .boolean, required := false, label := "Home Health" }),
      ("hasHospice", { kind := .boolean, required := false, label := "Hospice" }),
      ("hasDme", { kind := .boolean, required := false,
                   label := "DME (Durable Medical Equipment)" }),
      ("hasTransportation", { kind := .boolean, required := false,
                              label := "Transportation" })] }

/-- The insurance entry of the healthcare provider full page. -/
def hpInsurance : FullPageSection :=
  { id := "insurance", type := "insurance", name := "Accepted Insurance", optional := true,
    fields := [
      ("insuranceList", { kind := .array, required := false, label := "Insurance Plans",
                          maxItems := some 20,
                          itemSchema := [
                            ("name", { kind := .text, required := true,
                                       label := "Insurance Name", maxLength := some 100 })] })] }

/-- The admission coordinator entry of the healthcare provider full page. -/
def hpAdmissionCoordinator : FullPageSection :=
  { id := "admissionCoordinator", type := "admissionCoordinator",
    name := "Admission Coordinator", optional := true,
    fields := [
      ("name", { kind := .text, required := false, label := "Coordinator Name",
                 maxLength := some 100 }),
      ("phone", { kind := .text, required := false, label := "Direct Phone" }),
      ("email", { kind := .text, required := false, label := "Email" })] }

/-- The gallery entry of the healthcare provider full page. -/
def hpGallery : FullPageSection :=
  { id := "gallery", type := "gallery", name := "Photo Gallery", optional := true,
    fields := [
      ("galleryEnabled", { kind := .boolean, required := false,
                           label := "Enable Photo Gallery" })] }

/-- The `healthcare-provider` full page definition. -/
def HEALTHCARE_PROVIDER_FULLPAGE : FullPageDefinition :=
  { type := "healthcare-provider", name := "Healthcare Provider", category := "healthcare",
    sections := [hpHero, hpFacilityDetails, hpAbout, hpPricing, hpServices, hpInsurance,
                 hpAdmissionCoordinator, hpGallery] }

/-- The full page registry `FULLPAGE_DEFINITIONS`. -/
def FULLPAGE_DEFINITIONS : List (String × FullPageDefinition) :=
  [("healthcare-provider", HEALTHCARE_PROVIDER_FULLPAGE)]

/-- `getFullPageDefinition`: key lookup in the full page registry. -/
def getFullPageDefinition (fullPageType : String) : Option FullPageDefinition :=
  (FULLPAGE_DEFINITIONS.find? (fun p => p.1 == fullPageType)).map Prod.snd

/-- `data[section.id] || {}`: a falsy sub-value (in particular an absent
key) is replaced by an empty object. -/
def jsOrEmptyObject (v : JSValue) : JSValue :=
  if v.truthy then v else .obj []

/-- The body of the per-field loop of `validateFullPageData`: the same
required and text length checks, with the owning section's display name
in front of every message. -/
def fullPageFieldErrors (sectionName : String) (sectionData : JSValue)
    (fieldName : String) (fd : FieldDefinition) : List String :=
  (if fd.required && (!(sectionData.getProp fieldName).truthy ||
        (sectionData.getProp fieldName).isEmptyString) then
     [sectionName ++ ": " ++ fd.label ++ " is required"]
   else []) ++
  (if fd.kind == FieldKind.text && (sectionData.getProp fieldName).truthy then
     match fd.maxLength with
     | some m =>
       if m != 0 && jsLengthExceeds (sectionData.getProp fieldName) m then
         [sectionName ++ ": " ++ fd.label ++ " must be " ++ toString m ++
           " characters or less"]
       else []
     | none => []
   else [])

/-- The contribution of one declared section to the full page validation:
its fields are checked against the sub-object of the input keyed by the
section's `id`. -/
def fullPageSectionErrors (sec : FullPageSection) (data : JSValue) : List String :=
  let sectionData := jsOrEmptyObject (data.getProp sec.id)
  sec.fields.flatMap (fun p => fullPageFieldErrors sec.name sectionData p.1 p.2)

/-- `validateFullPageData`: resolve the full page type, short-circuit for
unknown types, otherwise validate every declared section in order. -/
def validateFullPageData (fullPageType : String) (data : JSValue) : ValidationResult :=
  match getFullPageDefinition fullPageType with
  | none => { valid := false, errors := ["Unknown full page type: " ++ fullPageType] }
  | some definition =>
    let errors := definition.sections.flatMap (fun sec => fullPageSectionErrors sec data)
    { valid := errors.length == 0, errors := errors }

/-- The current full page schema version constant. -/
def FULLPAGE_SCHEMA_VERSION : String := "1.0.0"

/-- `isCompatibleFullPageVersion`: strict string equality with
`FULLPAGE_SCHEMA_VERSION`. -/
def isCompatibleFullPageVersion (version : String) : Bool :=
  version == FULLPAGE_SCHEMA_VERSION

/-- The required errors a full page section contributes when its
sub-object is entirely absent from the input: one per required field,
with the section name in front, and nothing else. -/
def missingSectionRequiredErrors (sec : FullPageSection) : List String :=
  sec.fields.flatMap (fun p =>
    if p.2.required then [sec.name ++ ": " ++ p.2.label ++ " is required"] else [])

/-- The member names every plain object literal inherits from
Object.prototype.  A bracket read with one of these keys on the registry
object returns the inherited member (a truthy function, or for the last
entry the prototype object itself), not undefined. -/
def OBJECT_PROTOTYPE_MEMBERS : List String :=
  ["constructor", "hasOwnProperty", "isPrototypeOf", "propertyIsEnumerable",
   "toLocaleString", "toString", "valueOf", "__defineGetter__", "__defineSetter__",
   "__lookupGetter__", "__lookupSetter__", "__proto__"]

/-- The possible outcomes of the bracket read SECTION_DEFINITIONS[type]
on the plain registry object literal: a registered own key yields its
definition, a member name inherited from Object.prototype yields that
truthy non-definition member, and any other key yields undefined. -/
inductive RegistryRead where
  | own (d : SectionDefinition)
  | inherited
  | undefined
deriving DecidableEq

/-- The bracket read SECTION_DEFINITIONS[sectionType] under full JS
object semantics: own keys first, then the Object.prototype chain. -/
def sectionRegistryRead (sectionType : String) : RegistryRead :=
  match SECTION_DEFINITIONS.find? (fun p => p.1 == sectionType) with
  | some p => .own p.2
  | none =>
    if sectionType ∈ OBJECT_PROTOTYPE_MEMBERS then .inherited
    else .undefined

/-- validateSectionData under full JS object semantics.  The source
computes SECTION_DEFINITIONS[sectionType] || null: an undefined read
falls through to null and the unknown-type error is returned, but a read
that hits an inherited Object.prototype member (for example "toString")
is truthy, so the null check is bypassed, definition.fields is undefined,
and Object.entries(definition.fields) throws — modelled as Except.error
with the TypeError message.  On registered own keys the behaviour is
exactly that of validateSectionData.  (The full page registry
FULLPAGE_DEFINITIONS is a plain object literal as well, so
getFullPageDefinition shares the same latent prototype-chain behaviour
for these twelve member names.) -/
def validateSectionDataJS (sectionType : String) (data : JSValue) :
    Except String ValidationResult :=
  match sectionRegistryRead sectionType with
  | .undefined =>
    .ok { valid := false, errors := ["Unknown section type: " ++ sectionType] }
  | .inherited => .error "TypeError: Cannot convert undefined or null to object"
  | .own definition =>
    let errors := sectionFieldErrors definition data
    .ok { valid := errors.length == 0, errors := errors }

theorem isEmptyString_truthy_false {v : JSValue} (h : v.isEmptyString = true) :
    v.truthy = false := by
  cases v <;> simp_all [JSValue.isEmptyString, JSValue.truthy, bne]

theorem requiredCheck_cond (fd : FieldDefinition) (v : JSValue) :
    (fd.required && (!v.truthy || v.isEmptyString)) = (fd.required && !v.truthy) := by
  cases v <;>
    simp [JSValue.truthy, JSValue.isEmptyString, bne, Bool.not_not, Bool.or_self]

theorem requiredCheck_eq (fd : FieldDefinition) (v : JSValue) :
    requiredCheck fd v =
      if fd.required && !v.truthy then [fd.label ++ " is required"] else [] := by
  unfold requiredCheck
  rw [requiredCheck_cond]

theorem requiredCheck_eq_iff (fd : FieldDefinition) (v : JSValue) :
    requiredCheck fd v = [fd.label ++ " is required"] ↔
      fd.required = true ∧ v.truthy = false := by
  rw [requiredCheck_eq]
  cases hr : fd.required <;> cases ht : v.truthy <;> simp

theorem requiredCheck_of_truthy {fd : FieldDefinition} {v : JSValue}
    (h : v.truthy = true) : requiredCheck fd v = [] := by
  rw [requiredCheck_eq]
  simp [h]

theorem lengthCheck_of_falsy {fd : FieldDefinition} {v : JSValue}
    (h : v.truthy = false) : lengthCheck fd v = [] := by
  unfold lengthCheck
  simp [h]

theorem validateField_length_le_one (data : JSValue) (fn : String)
    (fd : FieldDefinition) : (validateField data fn fd).length ≤ 1 := by
  unfold validateField
  cases ht : (data.getProp fn).truthy with
  | false =>
    rw [lengthCheck_of_falsy ht, List.append_nil, requiredCheck_eq]
    split <;> simp
  | true =>
    rw [requiredCheck_of_truthy ht, List.nil_append]
    unfold lengthCheck
    split
    · split
      · split <;> simp
      · simp
    · simp

theorem flatMap_length_le_of_le_one {α β : Type} (l : List α) (f : α → List β)
    (h : ∀ a ∈ l, (f a).length ≤ 1) : (l.flatMap f).length ≤ l.length := by
  induction l with
  | nil => simp
  | cons x xs ih =>
    rw [List.flatMap_cons, List.length_append, List.length_cons]
    have hx := h x (List.mem_cons_self x xs)
    have hxs := ih (fun a ha => h a (List.mem_cons_of_mem x ha))
    omega

theorem validateSectionData_of_found {t : String} {d : SectionDefinition}
    (h : getSectionDefinition t = some d) (data : JSValue) :
    validateSectionData t data =
      { valid := (sectionFieldErrors d data).length == 0,
        errors := sectionFieldErrors d data } := by
  unfold validateSectionData
  rw [h]

theorem validateSectionData_errors_of_found {t : String} {d : SectionDefinition}
    (h : getSectionDefinition t = some d) (data : JSValue) :
    (validateSectionData t data).errors = sectionFieldErrors d data := by
  rw [validateSectionData_of_found h]

theorem mem_registry_of_lookup {t : String} {d : SectionDefinition}
    (h : getSectionDefinition t = some d) : (t, d) ∈ SECTION_DEFINITIONS := by
  unfold getSectionDefinition at h
  cases hf : SECTION_DEFINITIONS.find? (fun p => p.1 == t) with
  | none => rw [hf] at h; exact absurd h (by simp)
  | some p =>
    rw [hf] at h
    have hmem := List.mem_of_find?_eq_some hf
    have hpred := List.find?_some hf
    obtain ⟨a, b⟩ := p
    have h1 : a = t := by simpa using hpred
    have h2 : b = d := by simpa using h
    rw [← h1, ← h2]
    exact hmem

/-- Every `maxLength` declared by a registered section field is nonzero
(so the JS truthiness guard on `maxLength` never masks a declared
limit). -/
def registryMaxLengthsPositive : Bool :=
  SECTION_DEFINITIONS.all (fun p => p.2.fields.all (fun q =>
    match q.2.maxLength with
    | some m => decide (0 < m)
    | none => true))

theorem registry_maxLength_pos {t : String} {d : SectionDefinition} {name : String}
    {fd : FieldDefinition} {m : Nat} (h : getSectionDefinition t = some d)
    (hf : (name, fd) ∈ d.fields) (hm : fd.maxLength = some m) : 0 < m := by
  have hall : registryMaxLengthsPositive = true := by decide
  unfold registryMaxLengthsPositive at hall
  have h1 := List.all_eq_true.mp hall (t, d) (mem_registry_of_lookup h)
  have h2 := List.all_eq_true.mp h1 (name, fd) hf
  simp only at h2
  rw [hm] at h2
  exact of_decide_eq_true h2

theorem sectionRegistryRead_of_none {t : String} (h : getSectionDefinition t = none) :
    sectionRegistryRead t =
      if t ∈ OBJECT_PROTOTYPE_MEMBERS then RegistryRead.inherited
      else RegistryRead.undefined := by
  unfold getSectionDefinition at h
  unfold sectionRegistryRead
  cases hf : SECTION_DEFINITIONS.find? (fun p => p.1 == t) with
  | none => rfl
  | some p => rw [hf] at h; simp at h

theorem sectionRegistryRead_of_some {t : String} {d : SectionDefinition}
    (h : getSectionDefinition t = some d) : sectionRegistryRead t = RegistryRead.own d := by
  unfold getSectionDefinition at h
  unfold sectionRegistryRead
  cases hf : SECTION_DEFINITIONS.find? (fun p => p.1 == t) with
  | none => rw [hf] at h; simp at h
  | some p =>
    rw [hf] at h
    simp only [Option.map_some'] at h
    show RegistryRead.own p.2 = RegistryRead.own d
    rw [Option.some_inj.mp h]

theorem fullPageFieldErrors_eq_map (n : String) (sd : JSValue) (fn : String)
    (fd : FieldDefinition) :
    fullPageFieldErrors n sd fn fd =
      (validateField sd fn fd).map (fun e => n ++ ": " ++ e) := by
  unfold fullPageFieldErrors validateField requiredCheck lengthCheck
  rw [List.map_append]
  congr 1
  · split <;> simp [String.append_assoc]
  · split
    · split
      · split <;> simp [String.append_assoc]
      · rfl
    · rfl

theorem validateFullPageData_of_found {t : String} {d : FullPageDefinition}
    (h : getFullPageDefinition t = some d) (data : JSValue) :
    validateFullPageData t data =
      { valid := (d.sections.flatMap (fun sec => fullPageSectionErrors sec data)).length == 0,
        errors := d.sections.flatMap (fun sec => fullPageSectionErrors sec data) } := by
  unfold validateFullPageData
  rw [h]

theorem getProp_empty_obj (k : String) : (JSValue.obj []).getProp k = JSValue.undefined := by
  rfl

theorem fullPageSectionErrors_of_absent {sec : FullPageSection} {data : JSValue}
    (h : data.getProp sec.id = JSValue.undefined) :
    fullPageSectionErrors sec data = missingSectionRequiredErrors sec := by
  unfold fullPageSectionErrors missingSectionRequiredErrors
  rw [h]
  show sec.fields.flatMap
      (fun p => fullPageFieldErrors sec.name (JSValue.obj []) p.1 p.2) = _
  apply List.flatMap_congr
  intro p _
  rw [fullPageFieldErrors_eq_map]
  unfold validateField
  rw [getProp_empty_obj, requiredCheck_eq,
    @lengthCheck_of_falsy p.2 JSValue.undefined rfl, List.append_nil]
  cases hr : p.2.required <;> simp [JSValue.truthy, hr, String.append_assoc]

/-- Claim C1, counterexample: contrary to the claim, validating the hero
section with an empty title and subtitle "ok" does not yield valid =
false, because the registered hero definition declares its title field
with required = false. -/
theorem hero_empty_title_counterexample :
    ¬ (validateSectionData "hero"
        (JSValue.obj [("title", JSValue.str ""), ("subtitle", JSValue.str "ok")])).valid
        = false := by
  decide

/-- Claim C1, amended: validateSectionData on the hero type with data
title = "" and subtitle = "ok" returns valid = true with an empty error
list, since the registered hero definition declares both title and
subtitle with required = false. -/
theorem hero_empty_title_valid :
    validateSectionData "hero"
      (JSValue.obj [("title", JSValue.str ""), ("subtitle", JSValue.str "ok")]) =
      { valid := true, errors := [] } := by
  decide

/-- Claim C2, counterexample: contrary to the claim, a present boolean
false value does trigger the required error (JS falsiness), as shown on
the features type, whose title field is required; the empty array passed
for the features field is truthy and correctly produces no error. -/
theorem required_check_false_value_counterexample :
    validateSectionData "features"
      (JSValue.obj [("title", JSValue.bool false), ("features", JSValue.arr [])]) =
      { valid := false, errors := ["Section Title is required"] } := by
  decide

/-- Claim C2, amended: for every registered section type and field, the
required error is produced exactly when the field is required and its
value in the data is JS-falsy (absent, null, empty string, and likewise
boolean false or the number zero); any truthy value, such as an empty
array, produces no required error, and whenever a required field is falsy
its required error appears in the validation result. -/
theorem required_error_iff_falsy :
    ∀ (t : String) (d : SectionDefinition) (data : JSValue) (name : String)
      (fd : FieldDefinition),
      getSectionDefinition t = some d → (name, fd) ∈ d.fields →
      (requiredCheck fd (data.getProp name) = [fd.label ++ " is required"] ↔
        fd.required = true ∧ (data.getProp name).truthy = false)
      ∧ (fd.required = true → (data.getProp name).truthy = false →
          (fd.label ++ " is required") ∈ (validateSectionData t data).errors) := by
  intro t d data name fd hlookup hmem
  refine ⟨requiredCheck_eq_iff fd _, ?_⟩
  intro hr ht
  rw [validateSectionData_errors_of_found hlookup]
  refine List.mem_flatMap.2 ⟨(name, fd), hmem, ?_⟩
  unfold validateField
  apply List.mem_append_left
  rw [(requiredCheck_eq_iff fd _).2 ⟨hr, ht⟩]
  exact List.mem_singleton_self _

/-- Claim C2, witness: applying the amended theorem at the features type
with a present boolean false title value produces the required error. -/
theorem required_error_iff_falsy_witness :
    ("Section Title is required") ∈
      (validateSectionData "features"
        (JSValue.obj [("title", JSValue.bool false)])).errors :=
  (required_error_iff_falsy "features" featuresSection
      (JSValue.obj [("title", JSValue.bool false)]) "title"
      { kind := .text, required := true, label := "Section Title", maxLength := some 80 }
      rfl (by decide)).2 rfl rfl

/-- Claim C3, counterexample: "toString" is not a registered section type
(the own-key lookup yields none), yet under full JS object semantics the
validator does not return the single unknown-type error for it: the
bracket read hits the inherited truthy Object.prototype.toString member,
the null check is bypassed, and the call throws a TypeError at
Object.entries(definition.fields) — so the unknown-type short-circuit is
not taken for every unregistered identifier. -/
theorem unknown_type_short_circuit_counterexample :
    getSectionDefinition "toString" = none
    ∧ validateSectionDataJS "toString" (JSValue.obj []) =
        Except.error "TypeError: Cannot convert undefined or null to object"
    ∧ (Except.error "TypeError: Cannot convert undefined or null to object" :
        Except String ValidationResult) ≠
        Except.ok { valid := false, errors := ["Unknown section type: " ++ "toString"] } :=
  ⟨rfl, rfl, fun h => Except.noConfusion h⟩

/-- Claim C3, amended: validateSectionData("not-a-real-type", {}) returns
exactly the single unknown-type error with valid = false, and every
unregistered type identifier that is not an Object.prototype member name
returns that single-error result immediately, the only short-circuit
before field inspection; an unregistered identifier that names an
inherited Object.prototype member (such as "toString") instead bypasses
the null check and the call throws a TypeError, while every registered
type proceeds to the full field walk. -/
theorem unknown_type_short_circuit_amended :
    validateSectionDataJS "not-a-real-type" (JSValue.obj []) =
      Except.ok { valid := false, errors := ["Unknown section type: not-a-real-type"] }
    ∧ (∀ (t : String) (data : JSValue),
        getSectionDefinition t = none → t ∉ OBJECT_PROTOTYPE_MEMBERS →
        validateSectionDataJS t data =
          Except.ok { valid := false, errors := ["Unknown section type: " ++ t] })
    ∧ (∀ (t : String) (data : JSValue),
        getSectionDefinition t = none → t ∈ OBJECT_PROTOTYPE_MEMBERS →
        validateSectionDataJS t data =
          Except.error "TypeError: Cannot convert undefined or null to object")
    ∧ (∀ (t : String) (d : SectionDefinition) (data : JSValue),
        getSectionDefinition t = some d →
        validateSectionDataJS t data = Except.ok (validateSectionData t data)) := by
  refine ⟨rfl, ?_, ?_, ?_⟩
  · intro t data hnone hmem
    unfold validateSectionDataJS
    rw [sectionRegistryRead_of_none hnone, if_neg hmem]
  · intro t data hnone hmem
    unfold validateSectionDataJS
    rw [sectionRegistryRead_of_none hnone, if_pos hmem]
  · intro t d data h
    unfold validateSectionDataJS
    rw [sectionRegistryRead_of_some h, validateSectionData_of_found h]

/-- Claim C3, witness: a concrete unregistered non-prototype identifier
flows through the single-error branch, and the unregistered prototype
member name "toString" flows through the throwing branch. -/
theorem unknown_type_short_circuit_amended_witness :
    validateSectionDataJS "bogus-type" (JSValue.obj [("x", JSValue.num 1)]) =
      Except.ok { valid := false, errors := ["Unknown section type: " ++ "bogus-type"] }
    ∧ validateSectionDataJS "toString" (JSValue.obj []) =
        Except.error "TypeError: Cannot convert undefined or null to object" :=
  ⟨unknown_type_short_circuit_amended.2.1 "bogus-type"
     (JSValue.obj [("x", JSValue.num 1)]) (by decide) (by decide),
   unknown_type_short_circuit_amended.2.2.1 "toString" (JSValue.obj [])
     (by decide) (by decide)⟩

/-- Claim C8: the icon resolver is total — every registered icon value
resolves to its entry's platform-specific identifier (in particular
"star" on web resolves to the star entry's web identifier), and every
unregistered value passes through unchanged. -/
theorem icon_platform_total_lookup :
    (∀ o ∈ ICON_OPTIONS, getIconForPlatform o.value Platform.mobile = o.mobile ∧
        getIconForPlatform o.value Platform.web = o.web)
    ∧ (∀ (v : String) (p : Platform), (∀ o ∈ ICON_OPTIONS, o.value ≠ v) →
        getIconForPlatform v p = v)
    ∧ getIconForPlatform "star" Platform.web = "star" := by
  refine ⟨by decide, ?_, by decide⟩
  intro v p h
  unfold getIconForPlatform
  have hnone : ICON_OPTIONS.find? (fun o => o.value == v) = none :=
    List.find?_eq_none.mpr (fun o ho => by simpa using h o ho)
  rw [hnone]

/-- Claim C8, witness: a value absent from the icon table passes through
the resolver unchanged. -/
theorem icon_platform_total_lookup_witness :
    getIconForPlatform "totally-unknown" Platform.web = "totally-unknown" :=
  icon_platform_total_lookup.2.1 "totally-unknown" Platform.web (by decide)

/-- Claim C9: the version gate is strict string equality with the current
schema version constant — true exactly on the constant itself, false on
every other string including "0.0.1". -/
theorem version_gate_strict_equality :
    (∀ version : String, isCompatibleVersion version = true ↔ version = SCHEMA_VERSION)
    ∧ isCompatibleVersion SCHEMA_VERSION = true
    ∧ isCompatibleVersion "0.0.1" = false := by
  refine ⟨?_, by decide, by decide⟩
  intro v
  unfold isCompatibleVersion
  exact beq_iff_eq

/-- Claim C9, witness: the gate accepts the current constant, through the
equivalence of the theorem. -/
theorem version_gate_strict_equality_witness :
    isCompatibleVersion "1.0.0" = true :=
  (version_gate_strict_equality.1 "1.0.0").mpr (by decide)

/-- Claim C4: for every registered full page type the validator runs the
per-field required and text length checks once per declared section,
against the sub-object of the input keyed by the section id, with each
message carrying the section display name in front; a section whose key
is entirely absent is treated as an empty object and contributes exactly
the required errors of its required fields, with no structural error. -/
theorem fullpage_per_section_validation :
    ∀ (t : String) (d : FullPageDefinition) (data : JSValue),
      getFullPageDefinition t = some d →
      ((validateFullPageData t data).errors =
        d.sections.flatMap (fun sec =>
          (sec.fields.flatMap (fun p =>
            validateField (jsOrEmptyObject (data.getProp sec.id)) p.1 p.2)).map
            (fun e => sec.name ++ ": " ++ e)))
      ∧ (∀ sec ∈ d.sections, data.getProp sec.id = JSValue.undefined →
          fullPageSectionErrors sec data = missingSectionRequiredErrors sec) := by
  intro t d data h
  constructor
  · rw [validateFullPageData_of_found h]
    apply List.flatMap_congr
    intro sec _
    simp only [fullPageSectionErrors]
    rw [List.map_flatMap]
    apply List.flatMap_congr
    intro p _
    exact fullPageFieldErrors_eq_map sec.name _ p.1 p.2
  · intro sec _ habs
    exact fullPageSectionErrors_of_absent habs

/-- Claim C4, witness: validating the healthcare provider page against an
input with every section key absent decomposes per section, and the hero
section contributes exactly its required-field error. -/
theorem fullpage_per_section_validation_witness :
    ((validateFullPageData "healthcare-provider" (JSValue.obj [])).errors =
      HEALTHCARE_PROVIDER_FULLPAGE.sections.flatMap (fun sec =>
        (sec.fields.flatMap (fun p =>
          validateField (jsOrEmptyObject ((JSValue.obj []).getProp sec.id)) p.1 p.2)).map
          (fun e => sec.name ++ ": " ++ e)))
    ∧ fullPageSectionErrors hpHero (JSValue.obj []) = missingSectionRequiredErrors hpHero :=
  ⟨(fullpage_per_section_validation "healthcare-provider" HEALTHCARE_PROVIDER_FULLPAGE
      (JSValue.obj []) rfl).1,
   (fullpage_per_section_validation "healthcare-provider" HEALTHCARE_PROVIDER_FULLPAGE
      (JSValue.obj []) rfl).2 hpHero (by decide) rfl⟩

/-- Claim C5: for every registered section field of kind text declaring a
maximum length N, a present string value of length N yields no error for
that field at all, and a present string value of length N plus one puts
the declared length error message into the validation result. -/
theorem text_maxLength_boundary :
    ∀ (t : String) (d : SectionDefinition) (name : String) (fd : FieldDefinition)
      (N : Nat) (data : JSValue) (s : String),
      getSectionDefinition t = some d → (name, fd) ∈ d.fields →
      fd.kind = FieldKind.text → fd.maxLength = some N →
      data.getProp name = JSValue.str s →
      (s.length = N → validateField data name fd = [])
      ∧ (s.length = N + 1 →
          (fd.label ++ " must be " ++ toString N ++ " characters or less") ∈
            (validateSectionData t data).errors) := by
  intro t d name fd N data s hlookup hmem hkind hml hv
  have hpos : 0 < N := registry_maxLength_pos hlookup hmem hml
  constructor
  · intro hlen
    have hne : s ≠ "" := by
      intro hs
      rw [hs] at hlen
      have h0 : ("" : String).length = 0 := rfl
      rw [h0] at hlen
      omega
    have htr : (JSValue.str s).truthy = true := by
      simp [JSValue.truthy, bne_iff_ne, hne]
    have hexc : jsLengthExceeds (JSValue.str s) N = false := by
      show decide (N < s.length) = false
      rw [hlen]
      exact decide_eq_false (lt_irrefl N)
    unfold validateField
    rw [hv, requiredCheck_of_truthy htr, List.nil_append]
    unfold lengthCheck
    rw [hkind, hml]
    simp [htr, hexc]
  · intro hlen
    have hne : s ≠ "" := by
      intro hs
      rw [hs] at hlen
      have h0 : ("" : String).length = 0 := rfl
      rw [h0] at hlen
      omega
    have htr : (JSValue.str s).truthy = true := by
      simp [JSValue.truthy, bne_iff_ne, hne]
    have hexc : jsLengthExceeds (JSValue.str s) N = true := by
      show decide (N < s.length) = true
      rw [hlen]
      exact decide_eq_true (Nat.lt_succ_self N)
    have hN0 : (N != 0) = true := by
      simp [bne_iff_ne]
      omega
    rw [validateSectionData_errors_of_found hlookup]
    refine List.mem_flatMap.2 ⟨(name, fd), hmem, ?_⟩
    unfold validateField
    rw [hv]
    apply List.mem_append_right
    unfold lengthCheck
    rw [hkind, hml]
    simp [htr, hexc, hN0]

/-- Claim C5, witness: the contact section title (text, maximum length
80) receives an 81 character value and the length error appears in the
result. -/
theorem text_maxLength_boundary_witness :
    ("Section Title" ++ " must be " ++ toString 80 ++ " characters or less") ∈
      (validateSectionData "contact"
        (JSValue.obj [("title", JSValue.str (String.mk (List.replicate 81 'a')))])).errors :=
  (text_maxLength_boundary "contact" contactSection "title"
      { kind := .text, required := true, label := "Section Title", maxLength := some 80 }
      80
      (JSValue.obj [("title", JSValue.str (String.mk (List.replicate 81 'a')))])
      (String.mk (List.replicate 81 'a'))
      rfl (by decide) rfl rfl rfl).2 (by decide)

/-- Claim C6: every error produced by validateSectionData on a registered
type comes either from the required check of a declared field with a
falsy value, or from the length check of a declared field of kind text
with a declared maximum length; no other field kind or constraint
contributes any error. -/
theorem errors_only_required_or_text_length :
    ∀ (t : String) (d : SectionDefinition) (data : JSValue) (e : String),
      getSectionDefinition t = some d → e ∈ (validateSectionData t data).errors →
      ∃ p ∈ d.fields,
        (p.2.required = true ∧ (data.getProp p.1).truthy = false ∧
          e = p.2.label ++ " is required")
        ∨ (p.2.kind = FieldKind.text ∧ (∃ m, p.2.maxLength = some m ∧
            e = p.2.label ++ " must be " ++ toString m ++ " characters or less")) := by
  intro t d data e h he
  rw [validateSectionData_errors_of_found h] at he
  obtain ⟨p, hp, hep⟩ := List.mem_flatMap.1 he
  refine ⟨p, hp, ?_⟩
  unfold validateField at hep
  rcases List.mem_append.1 hep with h1 | h2
  · left
    rw [requiredCheck_eq] at h1
    split at h1
    · next hc =>
      simp only [Bool.and_eq_true] at hc
      obtain ⟨hr, ht⟩ := hc
      refine ⟨hr, by simpa using ht, List.mem_singleton.1 h1⟩
    · exact absurd h1 (List.not_mem_nil e)
  · right
    unfold lengthCheck at h2
    split at h2
    · next hc =>
      simp only [Bool.and_eq_true] at hc
      obtain ⟨hk, _⟩ := hc
      refine ⟨by simpa using hk, ?_⟩
      split at h2
      · next m heq =>
        split at h2
        · exact ⟨m, heq, List.mem_singleton.1 h2⟩
        · exact absurd h2 (List.not_mem_nil e)
      · exact absurd h2 (List.not_mem_nil e)
    · exact absurd h2 (List.not_mem_nil e)

/-- Claim C6, witness: the first error produced for the features type on
an empty data object is accounted for by the required check of a declared
field. -/
theorem errors_only_required_or_text_length_witness :
    ∃ p ∈ featuresSection.fields,
      (p.2.required = true ∧ ((JSValue.obj []).getProp p.1).truthy = false ∧
        "Section Title is required" = p.2.label ++ " is required")
      ∨ (p.2.kind = FieldKind.text ∧ (∃ m, p.2.maxLength = some m ∧
          "Section Title is required" =
            p.2.label ++ " must be " ++ toString m ++ " characters or less")) :=
  errors_only_required_or_text_length "features" featuresSection (JSValue.obj [])
    "Section Title is required" rfl (by decide)

/-- Claim C7: filtering sections by category returns only definitions of
that category, returns the empty list for any category string with no
members, and the union of the five section categories is a permutation of
the full registered set (every definition exactly once). -/
theorem sections_by_category_partition :
    (∀ (c : String) (d : SectionDefinition), d ∈ getSectionsByCategory c →
      d.category = c)
    ∧ (∀ c : String, (∀ d ∈ SECTION_DEFINITIONS.map Prod.snd, d.category ≠ c) →
        getSectionsByCategory c = [])
    ∧ List.Perm
        (getSectionsByCategory "content" ++ getSectionsByCategory "media" ++
         getSectionsByCategory "interaction" ++ getSectionsByCategory "data" ++
         getSectionsByCategory "layout")
        (SECTION_DEFINITIONS.map Prod.snd) := by
  refine ⟨?_, ?_, by decide⟩
  · intro c d hd
    have hp := List.of_mem_filter hd
    simpa using hp
  · intro c h
    unfold getSectionsByCategory
    exact List.filter_eq_nil_iff.mpr (fun d hd => by simpa using h d hd)

/-- Claim C7, witness: an unrecognized category string yields the empty
list. -/
theorem sections_by_category_partition_witness :
    getSectionsByCategory "unrecognized-category" = [] :=
  sections_by_category_partition.2.1 "unrecognized-category" (by decide)

/-- Claim C10: on a registered type each declared field contributes at
most one error (the required and length branches are mutually exclusive
per field), so the error list is never longer than the field list, and
the result depends only on the values of the declared field names, so
undeclared keys in the data never contribute any error. -/
theorem per_field_at_most_one_error :
    ∀ (t : String) (d : SectionDefinition) (data : JSValue),
      getSectionDefinition t = some d →
      (∀ p ∈ d.fields, (validateField data p.1 p.2).length ≤ 1)
      ∧ (validateSectionData t data).errors.length ≤ d.fields.length
      ∧ (∀ data' : JSValue,
          (∀ p ∈ d.fields, data.getProp p.1 = data'.getProp p.1) →
          validateSectionData t data = validateSectionData t data') := by
  intro t d data h
  refine ⟨fun p _ => validateField_length_le_one data p.1 p.2, ?_, ?_⟩
  · rw [validateSectionData_errors_of_found h]
    exact flatMap_length_le_of_le_one d.fields _
      (fun p _ => validateField_length_le_one data p.1 p.2)
  · intro data' hsame
    have hsec : sectionFieldErrors d data = sectionFieldErrors d data' := by
      unfold sectionFieldErrors
      apply List.flatMap_congr
      intro p hp
      unfold validateField
      rw [hsame p hp]
    rw [validateSectionData_of_found h, validateSectionData_of_found h, hsec]

/-- Claim C10, witness: the hero error list is bounded by its four
declared fields, and adding an undeclared key to the data leaves the
result unchanged. -/
theorem per_field_at_most_one_error_witness :
    (validateSectionData "hero" (JSValue.obj [])).errors.length ≤
      heroSection.fields.length
    ∧ validateSectionData "hero" (JSValue.obj []) =
        validateSectionData "hero" (JSValue.obj [("zzz", JSValue.str "x")]) :=
  ⟨(per_field_at_most_one_error "hero" heroSection (JSValue.obj []) rfl).2.1,
   (per_field_at_most_one_error "hero" heroSection (JSValue.obj []) rfl).2.2
     (JSValue.obj [("zzz", JSValue.str "x")])
     (by intro p hp; fin_cases hp <;> rfl)⟩
